import Mathlib

/-!
Shallow embedding of `src/server.ts` of mcp-korea-public-transit
(the dual-provider variant: `parseApiResponse`, `parseSubwayApiResponse`,
`searchBusStops`, `searchSubwayStations` and the
`search_transit_stops_by_name` tool handler).

Modelling conventions:
* JavaScript values produced by `JSON.parse` are modelled by the inductive
  `Json`.  `undefined` (the result of reading an absent property) and `null`
  are merged into `Json.null`: the two are indistinguishable by every
  operation this code performs on them (optional chaining, truthiness,
  `||`), and no `null`/`undefined` value is ever stored in an emitted
  record (every stored field is either truthy or the empty string).
* JSON numbers are modelled as `Int`.  No claim depends on numeric values
  beyond truthiness of zero, and the provider payloads carry integers.
* `JSON.parse` itself is a platform builtin, not repository code; its
  outcome is the `Option Json` argument of the normalizers (`none` models
  a thrown `SyntaxError`, which the source catches).
* Objects built by `JSON.parse` have unique keys (a JavaScript object
  keeps one binding per key), so association-list lookup order is
  irrelevant on the trees that model parse results; we look up the first
  binding.
-/

inductive Json where
  | null
  | bool (b : Bool)
  | num (n : Int)
  | str (s : String)
  | arr (elems : List Json)
  | obj (fields : List (String × Json))

/-- First binding for a key in an object's field list. -/
def jsLookup : List (String × Json) → String → Option Json
  | [], _ => none
  | (k, v) :: rest, key => if k = key then some v else jsLookup rest key

/-- Property read `v.k` (and `v?.k`) on a value that is an object yields the
field; on any other value it yields `undefined` (modelled `Json.null`).
The throwing case (plain access on `null`) is handled at its use site in
`busItemsToStops` / `subwayItemsToStops`. -/
def getF : Json → String → Json
  | .obj fs, k => (jsLookup fs k).getD .null
  | _, _ => .null

/-- JavaScript truthiness of a parsed value: `null`/`undefined`, `false`,
`0` and `""` are falsy; every object and array is truthy. -/
def jsTruthy : Json → Bool
  | .null => false
  | .bool b => b
  | .num n => n != 0
  | .str s => s != ""
  | .arr _ => true
  | .obj _ => true

/-- JavaScript `a || b`. -/
def jsOr (a b : Json) : Json := if jsTruthy a then a else b

/-- `interface BusStop` of `server.ts`: fields hold the JavaScript values
the parser stores (the TypeScript annotation says `string`, but the code
stores whatever `JSON.parse` produced). -/
structure BusStop where
  stId : Json
  stNm : Json
  tmX : Json
  tmY : Json
  arsId : Json
  posX : Json
  posY : Json

/-- `interface SubwayStation` of `server.ts`. -/
structure SubwayStation where
  subwayStationId : Json
  subwayStationName : Json
  subwayRouteName : Json
  x : Json
  y : Json

/-- The body of the `forEach` callback of `parseApiResponse` for one item:
`const stationId = item.stationId || item.stId;`,
`const stationName = item.stationNm || item.stNm;`, then the guarded push.
(The source binds the two locals; here the expressions are inlined.)
Returns `none` when the item is skipped. -/
def mkBusStop (item : Json) : Option BusStop :=
  if jsTruthy (jsOr (getF item "stationId") (getF item "stId"))
      && jsTruthy (jsOr (getF item "stationNm") (getF item "stNm")) then
    some { stId := jsOr (getF item "stationId") (getF item "stId")
           stNm := jsOr (getF item "stationNm") (getF item "stNm")
           tmX := jsOr (jsOr (getF item "tmX") (getF item "gpsX")) (.str "")
           tmY := jsOr (jsOr (getF item "tmY") (getF item "gpsY")) (.str "")
           arsId := jsOr (getF item "arsId") (.str "")
           posX := jsOr (getF item "posX") (.str "")
           posY := jsOr (getF item "posY") (.str "") }
  else none

/-- `itemArray.forEach(...)` of `parseApiResponse`, accumulating pushes.
A `null` item makes `item.stationId` throw a `TypeError`; the surrounding
`try`/`catch` swallows it and `parseApiResponse` returns the records
pushed before the throw, so iteration stops there. -/
def busItemsToStops : List Json → List BusStop
  | [] => []
  | Json.null :: _ => []
  | item :: rest =>
    match mkBusStop item with
    | some s => s :: busItemsToStops rest
    | none => busItemsToStops rest

/-- `const itemArray = Array.isArray(items) ? items : [items];` -/
def toItemArray : Json → List Json
  | .arr xs => xs
  | v => [v]

/-- `parseApiResponse(responseText)`.  The argument is the outcome of
`JSON.parse(responseText)` (`none` = parse threw, caught by the function's
`catch`, which returns the empty accumulator). -/
def parseApiResponse : Option Json → List BusStop
  | none => []
  | some jsonResponse =>
    if jsTruthy (getF (getF jsonResponse "msgBody") "itemList") then
      busItemsToStops (toItemArray (getF (getF jsonResponse "msgBody") "itemList"))
    else []

/-- The body of the `forEach` callback of `parseSubwayApiResponse` for one
item: guarded push keyed on `item.subwayStationId && item.subwayStationName`. -/
def mkSubwayStation (item : Json) : Option SubwayStation :=
  if jsTruthy (getF item "subwayStationId") && jsTruthy (getF item "subwayStationName") then
    some { subwayStationId := getF item "subwayStationId"
           subwayStationName := getF item "subwayStationName"
           subwayRouteName := jsOr (getF item "subwayRouteName") (.str "")
           x := jsOr (getF item "x") (.str "")
           y := jsOr (getF item "y") (.str "") }
  else none

/-- `itemArray.forEach(...)` of `parseSubwayApiResponse`; a `null` item
throws and truncates, as in `busItemsToStops`. -/
def subwayItemsToStops : List Json → List SubwayStation
  | [] => []
  | Json.null :: _ => []
  | item :: rest =>
    match mkSubwayStation item with
    | some s => s :: subwayItemsToStops rest
    | none => subwayItemsToStops rest

/-- `parseSubwayApiResponse(responseText)`; canonical list at
`jsonResponse?.response?.body?.items?.item`. -/
def parseSubwayApiResponse : Option Json → List SubwayStation
  | none => []
  | some jsonResponse =>
    if jsTruthy (getF (getF (getF (getF jsonResponse "response") "body") "items") "item") then
      subwayItemsToStops
        (toItemArray (getF (getF (getF (getF jsonResponse "response") "body") "items") "item"))
    else []

inductive StopType where
  | bus
  | subway

/-- `interface TransitStop` of `server.ts`.  `additionalInfo` is optional
in TypeScript but set by both constructor sites. -/
structure TransitStop where
  type : StopType
  id : Json
  name : Json
  x : Json
  y : Json
  additionalInfo : Json

/-- The `busStops.map(...)` projection at the end of `searchBusStops`. -/
def busStopToTransit (stop : BusStop) : TransitStop :=
  { type := .bus
    id := stop.stId
    name := stop.stNm
    x := jsOr stop.tmX stop.posX
    y := jsOr stop.tmY stop.posY
    additionalInfo := stop.arsId }

/-- The `subwayStations.map(...)` projection at the end of
`searchSubwayStations`. -/
def subwayStationToTransit (station : SubwayStation) : TransitStop :=
  { type := .subway
    id := station.subwayStationId
    name := station.subwayStationName
    x := station.x
    y := station.y
    additionalInfo := station.subwayRouteName }

/-- Outcome of one provider's `fetch` + `response.text()` as seen by a
search helper: a network fault (fetch or text() threw), or a response with
its `ok` flag and the `JSON.parse` outcome of its body text. -/
inductive FetchOutcome where
  | netError
  | response (ok : Bool) (body : Option Json)

/-- `searchBusStops(searchTerm)`: throws (`Except.error`) on a network
fault or a non-2xx status, otherwise parses and projects. -/
def searchBusStops : FetchOutcome → Except Unit (List TransitStop)
  | .netError => .error ()
  | .response false _ => .error ()
  | .response true body => .ok ((parseApiResponse body).map busStopToTransit)

/-- `searchSubwayStations(searchTerm)`: same shape as `searchBusStops`. -/
def searchSubwayStations : FetchOutcome → Except Unit (List TransitStop)
  | .netError => .error ()
  | .response false _ => .error ()
  | .response true body => .ok ((parseSubwayApiResponse body).map subwayStationToTransit)

/-- One branch of the fan-out together with its simulated completion
latency.  The latency does not exist in the source; it models which
branch's I/O settles first. -/
structure TimedFetch where
  latency : Nat
  outcome : FetchOutcome

/-- `Promise.all([p1, p2])`: waits for both promises and resolves with
their values in positional order — by the semantics of `Promise.all`,
settlement timing (the latencies) cannot influence the positional result. -/
def promiseAll2 (a b : TimedFetch) : FetchOutcome × FetchOutcome :=
  (a.outcome, b.outcome)

/-- `.catch((error) => { return []; })` attached to each branch before the
join. -/
def settleBranch (r : Except Unit (List TransitStop)) : List TransitStop :=
  match r with
  | .ok l => l
  | .error _ => []

/-- The `search_transit_stops_by_name` handler up to and including
`results.push(...busStops, ...subwayStations)`:
`const [busStops, subwayStations] = await Promise.all([...catch..., ...catch...])`
followed by the positional destructuring and concatenation. -/
def transitSearchHandler (busFetch subFetch : TimedFetch) : List TransitStop :=
  settleBranch (searchBusStops (promiseAll2 busFetch subFetch).1)
    ++ settleBranch (searchSubwayStations (promiseAll2 busFetch subFetch).2)

mutual

/-- JavaScript template-literal stringification `String(v)` of a parsed
value: strings verbatim, numbers in decimal, arrays joined with `,`
(with `null` elements printed empty), objects as `[object Object]`. -/
def jsToString : Json → String
  | .null => "null"
  | .bool true => "true"
  | .bool false => "false"
  | .num n => toString n
  | .str s => s
  | .arr xs => jsArrToString xs
  | .obj _ => "[object Object]"

/-- `Array.prototype.toString` = `join(",")` with `null`/`undefined`
elements rendered as the empty string. -/
def jsArrToString : List Json → String
  | [] => ""
  | [Json.null] => ""
  | [v] => jsToString v
  | Json.null :: v :: rest => "," ++ jsArrToString (v :: rest)
  | u :: v :: rest => jsToString u ++ "," ++ jsArrToString (v :: rest)

end

/-- The per-stop template of the handler's `results.map`: bus stops use the
`🚌` line with coordinates, subway stops the `🚇` line without them. -/
def renderStop (stop : TransitStop) : String :=
  match stop.type with
  | .bus =>
    "🚌 " ++ jsToString stop.name ++ " (" ++ jsToString stop.additionalInfo
      ++ ")\n   위치: X=" ++ jsToString stop.x ++ ", Y=" ++ jsToString stop.y
      ++ "\n   정류소ID: " ++ jsToString stop.id
  | .subway =>
    "🚇 " ++ jsToString stop.name ++ "\n   노선: " ++ jsToString stop.additionalInfo
      ++ "\n   역ID: " ++ jsToString stop.id

/-- The handler's full success text: header with the result count, then the
per-stop renderings joined by blank lines. -/
def renderTransitResults (searchTerm : String) (results : List TransitStop) : String :=
  "\"" ++ searchTerm ++ "\" 검색 결과: 총 " ++ toString results.length
    ++ "개의 대중교통 정류소/역을 찾았습니다.\n\n"
    ++ String.intercalate "\n\n" (results.map renderStop)

/-- Well-formedness of one raw bus item as the spec counts items: both the
id fallback chain and the name fallback chain resolve to truthy values. -/
def isWellFormedBusItem (item : Json) : Bool :=
  jsTruthy (jsOr (getF item "stationId") (getF item "stId"))
    && jsTruthy (jsOr (getF item "stationNm") (getF item "stNm"))

/-- Well-formedness of one raw subway item: truthy id and name. -/
def isWellFormedSubwayItem (item : Json) : Bool :=
  jsTruthy (getF item "subwayStationId") && jsTruthy (getF item "subwayStationName")

/-- `pat` is a prefix of `t` (on character lists). -/
def charsStartWith : List Char → List Char → Bool
  | _, [] => true
  | [], _ :: _ => false
  | a :: as, b :: bs => a == b && charsStartWith as bs

/-- `pat` occurs somewhere inside `t` (on character lists). -/
def charsHaveSub : List Char → List Char → Bool
  | [], p => charsStartWith [] p
  | c :: ts, p => charsStartWith (c :: ts) p || charsHaveSub ts p

/-- Executable substring test used to refute rendering claims on concrete
outputs. -/
def strHasSub (t pat : String) : Bool := charsHaveSub t.data pat.data

/-- `pat` occurs inside `t`: the character data of `t` splits as
`p ++ pat.data ++ q`. -/
def strContains (t pat : String) : Prop :=
  ∃ p q : List Char, t.data = p ++ pat.data ++ q

/-- A bus payload whose `msgBody` object starts with `itemList`; `msgRest`
and `rest` are arbitrary further fields of `msgBody` and of the top-level
object. -/
def busPayload (itemListVal : Json) (msgRest rest : List (String × Json)) : Json :=
  Json.obj (("msgBody", Json.obj (("itemList", itemListVal) :: msgRest)) :: rest)

/-- A subway payload with the canonical `response.body.items.item` path. -/
def subwayPayload (itemVal : Json) : Json :=
  Json.obj [("response", Json.obj [("body",
    Json.obj [("items", Json.obj [("item", itemVal)])])])]

/-! ### Concrete sample values -/

/-- The spec's end-to-end bus item:
`{"stationId":"123","stationNm":"Test St","arsId":"01-001","tmX":"200000","tmY":"450000"}`. -/
def busItemEx : Json :=
  Json.obj [("stationId", Json.str "123"), ("stationNm", Json.str "Test St"),
    ("arsId", Json.str "01-001"), ("tmX", Json.str "200000"), ("tmY", Json.str "450000")]

/-- The record `parseApiResponse` emits for `busItemEx`. -/
def busStopEx : BusStop :=
  { stId := .str "123", stNm := .str "Test St", tmX := .str "200000",
    tmY := .str "450000", arsId := .str "01-001", posX := .str "", posY := .str "" }

/-- A bus item carrying `gpsX` but no `tmX`. -/
def busItemGpsOnly : Json :=
  Json.obj [("stId", Json.str "77"), ("stNm", Json.str "Stop77"), ("gpsX", Json.str "100")]

/-- The record emitted for `busItemGpsOnly`. -/
def busStopGpsOnly : BusStop :=
  { stId := .str "77", stNm := .str "Stop77", tmX := .str "100",
    tmY := .str "", arsId := .str "", posX := .str "", posY := .str "" }

/-- A bus item carrying both `tmX` and `gpsX`. -/
def busItemBothX : Json :=
  Json.obj [("stId", Json.str "88"), ("stNm", Json.str "Stop88"),
    ("tmX", Json.str "7"), ("gpsX", Json.str "100")]

/-- The record emitted for `busItemBothX`: `tmX` wins. -/
def busStopBothX : BusStop :=
  { stId := .str "88", stNm := .str "Stop88", tmX := .str "7",
    tmY := .str "", arsId := .str "", posX := .str "", posY := .str "" }

/-- A bus item whose only coordinates are the GRS80 pair `posX`/`posY`. -/
def busItemPosOnly : Json :=
  Json.obj [("stId", Json.str "99"), ("stNm", Json.str "Stop99"),
    ("posX", Json.str "126.97"), ("posY", Json.str "37.56")]

/-- The record emitted for `busItemPosOnly`. -/
def busStopPosOnly : BusStop :=
  { stId := .str "99", stNm := .str "Stop99", tmX := .str "",
    tmY := .str "", arsId := .str "", posX := .str "126.97", posY := .str "37.56" }

/-- A minimal well-formed bus item (name-search field variant). -/
def goodBusItem : Json := Json.obj [("stId", Json.str "1"), ("stNm", Json.str "A")]

/-- The record emitted for `goodBusItem`. -/
def goodBusStop : BusStop :=
  { stId := .str "1", stNm := .str "A", tmX := .str "",
    tmY := .str "", arsId := .str "", posX := .str "", posY := .str "" }

/-- A payload whose `itemList` holds a JSON `null` followed by a
well-formed item. -/
def nullThenGoodPayload : Json :=
  Json.obj [("msgBody", Json.obj [("itemList", Json.arr [Json.null, goodBusItem])])]

/-- A full subway item. -/
def subwayItemEx : Json :=
  Json.obj [("subwayStationId", Json.str "S1"), ("subwayStationName", Json.str "GangnamSt"),
    ("subwayRouteName", Json.str "Line2"), ("x", Json.str "XC37"), ("y", Json.str "YC127")]

/-- The record `parseSubwayApiResponse` emits for `subwayItemEx`. -/
def subwayStationEx : SubwayStation :=
  { subwayStationId := .str "S1", subwayStationName := .str "GangnamSt",
    subwayRouteName := .str "Line2", x := .str "XC37", y := .str "YC127" }

/-- The XML legacy sample the spec describes: two `<stationList>` blocks
with valid `stId`/`stNm` tags. -/
def xmlSampleText : String :=
  "<stationList><stId>100</stId><stNm>A</stNm></stationList>"
    ++ "<stationList><stId>200</stId><stNm>B</stNm></stationList>"

/-- `JSON.parse` outcome for `xmlSampleText`: an XML document is not valid
JSON (the leading `<` already fails the JSON grammar), so `JSON.parse`
throws a `SyntaxError`; the outcome is modelled as `none`. -/
def xmlParseOutcome : Option Json := none

/-! ## Helper lemmas -/

theorem jsOr_of_truthy {a : Json} (b : Json) (h : jsTruthy a = true) : jsOr a b = a := by
  simp [jsOr, h]

theorem jsOr_of_falsy {a : Json} (b : Json) (h : jsTruthy a = false) : jsOr a b = b := by
  simp [jsOr, h]

/-- Inversion of the guarded push of `parseApiResponse`: an emitted record
satisfies the guard and each field equals its fallback chain. -/
theorem mkBusStop_inv {item : Json} {stop : BusStop} (h : mkBusStop item = some stop) :
    jsTruthy (jsOr (getF item "stationId") (getF item "stId")) = true
  ∧ jsTruthy (jsOr (getF item "stationNm") (getF item "stNm")) = true
  ∧ stop.stId = jsOr (getF item "stationId") (getF item "stId")
  ∧ stop.stNm = jsOr (getF item "stationNm") (getF item "stNm")
  ∧ stop.tmX = jsOr (jsOr (getF item "tmX") (getF item "gpsX")) (.str "")
  ∧ stop.tmY = jsOr (jsOr (getF item "tmY") (getF item "gpsY")) (.str "")
  ∧ stop.arsId = jsOr (getF item "arsId") (.str "")
  ∧ stop.posX = jsOr (getF item "posX") (.str "")
  ∧ stop.posY = jsOr (getF item "posY") (.str "") := by
  unfold mkBusStop at h
  split at h
  · rename_i hcond
    cases h
    simp only [Bool.and_eq_true] at hcond
    exact ⟨hcond.1, hcond.2, rfl, rfl, rfl, rfl, rfl, rfl, rfl⟩
  · exact absurd h (by simp)

/-- Inversion of the guarded push of `parseSubwayApiResponse`. -/
theorem mkSubwayStation_inv {item : Json} {station : SubwayStation}
    (h : mkSubwayStation item = some station) :
    jsTruthy (getF item "subwayStationId") = true
  ∧ jsTruthy (getF item "subwayStationName") = true
  ∧ station.subwayStationId = getF item "subwayStationId"
  ∧ station.subwayStationName = getF item "subwayStationName"
  ∧ station.subwayRouteName = jsOr (getF item "subwayRouteName") (.str "")
  ∧ station.x = jsOr (getF item "x") (.str "")
  ∧ station.y = jsOr (getF item "y") (.str "") := by
  unfold mkSubwayStation at h
  split at h
  · rename_i hcond
    cases h
    simp only [Bool.and_eq_true] at hcond
    exact ⟨hcond.1, hcond.2, rfl, rfl, rfl, rfl, rfl⟩
  · exact absurd h (by simp)

/-! ## Claim theorems -/

/-- C1: the unified by-name search returns the bus branch's stops followed
by the subway branch's stops, each branch's list being the normalizer's
output (in emission order) mapped through the unit projection, and the
merged order does not depend on the branches' completion latencies. -/
theorem transit_search_bus_before_subway (bf sf : FetchOutcome)
    (l1 l2 l3 l4 : Nat) (busBody subBody : Option Json) :
    transitSearchHandler ⟨l1, bf⟩ ⟨l2, sf⟩
        = settleBranch (searchBusStops bf) ++ settleBranch (searchSubwayStations sf)
  ∧ transitSearchHandler ⟨l1, bf⟩ ⟨l2, sf⟩ = transitSearchHandler ⟨l3, bf⟩ ⟨l4, sf⟩
  ∧ transitSearchHandler ⟨l1, .response true busBody⟩ ⟨l2, .response true subBody⟩
        = (parseApiResponse busBody).map busStopToTransit
          ++ (parseSubwayApiResponse subBody).map subwayStationToTransit :=
  ⟨rfl, rfl, rfl⟩

/-- C2: a failing provider branch (network fault or non-2xx response)
degrades to the empty list without affecting the sibling branch: subway
failure plus a bus success yields exactly the bus stops (same count as the
normalizer emitted), and two failures yield the empty list, not an error. -/
theorem transit_search_branch_failure_isolated (l1 l2 : Nat)
    (busBody subBody : Option Json) :
    transitSearchHandler ⟨l1, .response true busBody⟩ ⟨l2, .netError⟩
        = (parseApiResponse busBody).map busStopToTransit
  ∧ transitSearchHandler ⟨l1, .response true busBody⟩ ⟨l2, .response false subBody⟩
        = (parseApiResponse busBody).map busStopToTransit
  ∧ (transitSearchHandler ⟨l1, .response true busBody⟩ ⟨l2, .netError⟩).length
        = (parseApiResponse busBody).length
  ∧ transitSearchHandler ⟨l1, .netError⟩ ⟨l2, .response true subBody⟩
        = (parseSubwayApiResponse subBody).map subwayStationToTransit
  ∧ transitSearchHandler ⟨l1, .netError⟩ ⟨l2, .netError⟩ = []
  ∧ transitSearchHandler ⟨l1, .netError⟩ ⟨l2, .response false subBody⟩ = []
  ∧ transitSearchHandler ⟨l1, .response false busBody⟩ ⟨l2, .netError⟩ = []
  ∧ transitSearchHandler ⟨l1, .response false busBody⟩ ⟨l2, .response false subBody⟩ = [] := by
  refine ⟨?_, ?_, ?_, ?_, rfl, rfl, rfl, rfl⟩ <;>
    simp [transitSearchHandler, promiseAll2, settleBranch, searchBusStops, searchSubwayStations]

/-- C3: the normalizers are total: a failed `JSON.parse` (modelled `none`)
or a parsed value whose canonical nested path is missing/falsy yields the
empty sequence, never a propagated error. -/
theorem normalizers_recover_on_malformed :
    parseApiResponse none = [] ∧ parseSubwayApiResponse none = []
  ∧ (∀ j : Json, jsTruthy (getF (getF j "msgBody") "itemList") = false →
        parseApiResponse (some j) = [])
  ∧ (∀ j : Json,
        jsTruthy (getF (getF (getF (getF j "response") "body") "items") "item") = false →
        parseSubwayApiResponse (some j) = []) := by
  refine ⟨rfl, rfl, ?_, ?_⟩ <;> intro j h <;>
    simp [parseApiResponse, parseSubwayApiResponse, h]

/-- Witness for C3 at a concrete unexpected shape (a bare number). -/
theorem normalizers_recover_on_malformed_witness :
    parseApiResponse (some (Json.num 5)) = []
  ∧ parseSubwayApiResponse (some (Json.num 5)) = [] :=
  ⟨normalizers_recover_on_malformed.2.2.1 (Json.num 5) rfl,
   normalizers_recover_on_malformed.2.2.2 (Json.num 5) rfl⟩

theorem busItemsToStops_cons {item : Json} (rest : List Json) (hne : item ≠ Json.null) :
    busItemsToStops (item :: rest)
      = match mkBusStop item with
        | some s => s :: busItemsToStops rest
        | none => busItemsToStops rest := by
  cases item
  · exact absurd rfl hne
  all_goals rfl

theorem subwayItemsToStops_cons {item : Json} (rest : List Json) (hne : item ≠ Json.null) :
    subwayItemsToStops (item :: rest)
      = match mkSubwayStation item with
        | some s => s :: subwayItemsToStops rest
        | none => subwayItemsToStops rest := by
  cases item
  · exact absurd rfl hne
  all_goals rfl

theorem mkBusStop_isSome (item : Json) :
    (mkBusStop item).isSome = isWellFormedBusItem item := by
  unfold mkBusStop isWellFormedBusItem
  split <;> simp_all

theorem mkSubwayStation_isSome (item : Json) :
    (mkSubwayStation item).isSome = isWellFormedSubwayItem item := by
  unfold mkSubwayStation isWellFormedSubwayItem
  split <;> simp_all

theorem mem_busItemsToStops {items : List Json} {stop : BusStop}
    (h : stop ∈ busItemsToStops items) : ∃ item, mkBusStop item = some stop := by
  induction items with
  | nil => simp [busItemsToStops] at h
  | cons item rest ih =>
    by_cases hne : item = Json.null
    · subst hne; simp [busItemsToStops] at h
    · rw [busItemsToStops_cons rest hne] at h
      cases hmk : mkBusStop item with
      | some s =>
        rw [hmk] at h
        rcases List.mem_cons.mp h with h1 | h2
        · exact ⟨item, by rw [hmk, h1]⟩
        · exact ih h2
      | none =>
        rw [hmk] at h
        exact ih h

theorem mem_subwayItemsToStops {items : List Json} {station : SubwayStation}
    (h : station ∈ subwayItemsToStops items) :
    ∃ item, mkSubwayStation item = some station := by
  induction items with
  | nil => simp [subwayItemsToStops] at h
  | cons item rest ih =>
    by_cases hne : item = Json.null
    · subst hne; simp [subwayItemsToStops] at h
    · rw [subwayItemsToStops_cons rest hne] at h
      cases hmk : mkSubwayStation item with
      | some s =>
        rw [hmk] at h
        rcases List.mem_cons.mp h with h1 | h2
        · exact ⟨item, by rw [hmk, h1]⟩
        · exact ih h2
      | none =>
        rw [hmk] at h
        exact ih h

theorem busItemsToStops_length {items : List Json} (h : ∀ i ∈ items, i ≠ Json.null) :
    (busItemsToStops items).length = (items.filter isWellFormedBusItem).length := by
  induction items with
  | nil => rfl
  | cons item rest ih =>
    have hitem : item ≠ Json.null := h item (List.mem_cons_self item rest)
    have hrest : ∀ i ∈ rest, i ≠ Json.null := fun i hi => h i (List.mem_cons_of_mem _ hi)
    rw [busItemsToStops_cons rest hitem]
    have hsome := mkBusStop_isSome item
    cases hmk : mkBusStop item with
    | some s =>
      rw [hmk] at hsome
      simp only [Option.isSome_some] at hsome
      simp [List.filter_cons, ← hsome, ih hrest]
    | none =>
      rw [hmk] at hsome
      simp only [Option.isSome_none] at hsome
      simp [List.filter_cons, ← hsome, ih hrest]

theorem subwayItemsToStops_length {items : List Json} (h : ∀ i ∈ items, i ≠ Json.null) :
    (subwayItemsToStops items).length = (items.filter isWellFormedSubwayItem).length := by
  induction items with
  | nil => rfl
  | cons item rest ih =>
    have hitem : item ≠ Json.null := h item (List.mem_cons_self item rest)
    have hrest : ∀ i ∈ rest, i ≠ Json.null := fun i hi => h i (List.mem_cons_of_mem _ hi)
    rw [subwayItemsToStops_cons rest hitem]
    have hsome := mkSubwayStation_isSome item
    cases hmk : mkSubwayStation item with
    | some s =>
      rw [hmk] at hsome
      simp only [Option.isSome_some] at hsome
      simp [List.filter_cons, ← hsome, ih hrest]
    | none =>
      rw [hmk] at hsome
      simp only [Option.isSome_none] at hsome
      simp [List.filter_cons, ← hsome, ih hrest]

theorem mem_parseApiResponse {parsed : Option Json} {stop : BusStop}
    (h : stop ∈ parseApiResponse parsed) : ∃ item, mkBusStop item = some stop := by
  cases parsed with
  | none => simp [parseApiResponse] at h
  | some j =>
    have h2 : stop ∈ (if jsTruthy (getF (getF j "msgBody") "itemList") then
        busItemsToStops (toItemArray (getF (getF j "msgBody") "itemList")) else []) := h
    split at h2
    · exact mem_busItemsToStops h2
    · simp at h2

theorem mem_parseSubwayApiResponse {parsed : Option Json} {station : SubwayStation}
    (h : station ∈ parseSubwayApiResponse parsed) :
    ∃ item, mkSubwayStation item = some station := by
  cases parsed with
  | none => simp [parseSubwayApiResponse] at h
  | some j =>
    have h2 : station ∈
        (if jsTruthy (getF (getF (getF (getF j "response") "body") "items") "item") then
          subwayItemsToStops
            (toItemArray (getF (getF (getF (getF j "response") "body") "items") "item"))
        else []) := h
    split at h2
    · exact mem_subwayItemsToStops h2
    · simp at h2

/-- Collapsing the two `||`-chains the unified bus projection composes:
`((A || B) || "") || (C || "")` picks the first truthy of `A`, `B`, `C`
and otherwise the empty string. -/
theorem jsOr_chain (A B C : Json) :
    jsOr (jsOr (jsOr A B) (.str "")) (jsOr C (.str ""))
      = jsOr A (jsOr B (jsOr C (.str ""))) := by
  have h0 : jsTruthy (Json.str "") = false := rfl
  cases hA : jsTruthy A <;> cases hB : jsTruthy B <;> cases hC : jsTruthy C <;>
    simp [jsOr, hA, hB, hC, h0]

/-- C4: per bus item the normalizer resolves id as `stationId` else `stId`,
name as `stationNm` else `stNm`, x as `tmX` else `gpsX` else empty,
y as `tmY` else `gpsY` else empty, auxiliary as `arsId` else empty; with
`gpsX = "100"` and no `tmX` the x-field resolves to `"100"`, and a truthy
`tmX` always wins. -/
theorem bus_item_field_fallback (item : Json) (stop : BusStop)
    (h : mkBusStop item = some stop) :
    stop.stId = jsOr (getF item "stationId") (getF item "stId")
  ∧ stop.stNm = jsOr (getF item "stationNm") (getF item "stNm")
  ∧ stop.tmX = jsOr (jsOr (getF item "tmX") (getF item "gpsX")) (.str "")
  ∧ stop.tmY = jsOr (jsOr (getF item "tmY") (getF item "gpsY")) (.str "")
  ∧ stop.arsId = jsOr (getF item "arsId") (.str "")
  ∧ (getF item "tmX" = .null → getF item "gpsX" = .str "100" → stop.tmX = .str "100")
  ∧ (jsTruthy (getF item "tmX") = true → stop.tmX = getF item "tmX") := by
  obtain ⟨h1, h2, e1, e2, e3, e4, e5, e6, e7⟩ := mkBusStop_inv h
  refine ⟨e1, e2, e3, e4, e5, ?_, ?_⟩
  · intro ha hb
    rw [e3, ha, hb]
    rfl
  · intro ht
    rw [e3, jsOr_of_truthy (getF item "gpsX") ht, jsOr_of_truthy (Json.str "") ht]

/-- Witness for C4: the `gpsX`-only item resolves x to `"100"`; with both
fields present `tmX` wins. -/
theorem bus_item_field_fallback_witness :
    busStopGpsOnly.tmX = Json.str "100" ∧ busStopBothX.tmX = Json.str "7" :=
  ⟨(bus_item_field_fallback busItemGpsOnly busStopGpsOnly rfl).2.2.2.2.2.1 rfl rfl,
   (bus_item_field_fallback busItemBothX busStopBothX rfl).2.2.2.2.2.2 rfl⟩

/-- C6: a payload whose canonical list position holds a single object and
the payload holding a one-element array of that object normalize to the
same sequence, for both providers; when the object is well-formed that
sequence is the corresponding singleton. -/
theorem itemList_single_vs_array (fs msgRest rest : List (String × Json)) :
    parseApiResponse (some (busPayload (Json.obj fs) msgRest rest))
        = parseApiResponse (some (busPayload (Json.arr [Json.obj fs]) msgRest rest))
  ∧ parseSubwayApiResponse (some (subwayPayload (Json.obj fs)))
        = parseSubwayApiResponse (some (subwayPayload (Json.arr [Json.obj fs])))
  ∧ (∀ stop, mkBusStop (Json.obj fs) = some stop →
      parseApiResponse (some (busPayload (Json.obj fs) msgRest rest)) = [stop])
  ∧ (∀ station, mkSubwayStation (Json.obj fs) = some station →
      parseSubwayApiResponse (some (subwayPayload (Json.obj fs))) = [station]) := by
  refine ⟨rfl, rfl, ?_, ?_⟩
  · intro stop h
    show busItemsToStops [Json.obj fs] = [stop]
    rw [busItemsToStops_cons [] (fun hc => Json.noConfusion hc), h]
    rfl
  · intro station h
    show subwayItemsToStops [Json.obj fs] = [station]
    rw [subwayItemsToStops_cons [] (fun hc => Json.noConfusion hc), h]
    rfl

/-- Witness for C6 at the spec's end-to-end bus example and a full subway
item. -/
theorem itemList_single_vs_array_witness :
    parseApiResponse (some (busPayload busItemEx [] [])) = [busStopEx]
  ∧ parseSubwayApiResponse (some (subwayPayload subwayItemEx)) = [subwayStationEx] :=
  ⟨(itemList_single_vs_array [("stationId", Json.str "123"),
      ("stationNm", Json.str "Test St"), ("arsId", Json.str "01-001"),
      ("tmX", Json.str "200000"), ("tmY", Json.str "450000")] [] []).2.2.1 busStopEx rfl,
   (itemList_single_vs_array [("subwayStationId", Json.str "S1"),
      ("subwayStationName", Json.str "GangnamSt"), ("subwayRouteName", Json.str "Line2"),
      ("x", Json.str "XC37"), ("y", Json.str "YC127")] [] []).2.2.2 subwayStationEx rfl⟩

/-- C8: for every subway item the normalizer maps id from
`subwayStationId`, name from `subwayStationName`, x from `x`, y from `y`
(each defaulting to the empty string when absent) and auxiliary from
`subwayRouteName` else empty, and emits the item exactly when both id and
name are truthy. -/
theorem subway_item_field_map (item : Json) (station : SubwayStation) :
    (mkSubwayStation item = some station →
        station.subwayStationId = getF item "subwayStationId"
      ∧ station.subwayStationName = getF item "subwayStationName"
      ∧ station.x = jsOr (getF item "x") (.str "")
      ∧ station.y = jsOr (getF item "y") (.str "")
      ∧ station.subwayRouteName = jsOr (getF item "subwayRouteName") (.str "")
      ∧ (getF item "x" = .null → station.x = .str "")
      ∧ (getF item "y" = .null → station.y = .str "")
      ∧ (getF item "subwayRouteName" = .null → station.subwayRouteName = .str ""))
  ∧ (mkSubwayStation item).isSome
      = (jsTruthy (getF item "subwayStationId")
          && jsTruthy (getF item "subwayStationName")) := by
  constructor
  · intro h
    obtain ⟨h1, h2, e1, e2, e3, e4, e5⟩ := mkSubwayStation_inv h
    refine ⟨e1, e2, e4, e5, e3, ?_, ?_, ?_⟩
    · intro hx
      rw [e4, hx]
      rfl
    · intro hy
      rw [e5, hy]
      rfl
    · intro hr
      rw [e3, hr]
      rfl
  · rw [mkSubwayStation_isSome]
    rfl

/-- Witness for C8 at a full subway item. -/
theorem subway_item_field_map_witness :
    subwayStationEx.x = jsOr (getF subwayItemEx "x") (.str "")
  ∧ subwayStationEx.subwayStationId = getF subwayItemEx "subwayStationId" :=
  ⟨((subway_item_field_map subwayItemEx subwayStationEx).1 rfl).2.2.1,
   ((subway_item_field_map subwayItemEx subwayStationEx).1 rfl).1⟩

/-- C10: the unified bus projection gives the x coordinate one more
fallback step than the normalized record alone: `tmX` else `gpsX` else
`posX` else empty (and likewise for y); in particular an item with neither
`tmX` nor `gpsX` but a `posX` gets that `posX` as its unified x. -/
theorem unified_bus_coordinate_posX_fallback (item : Json) (stop : BusStop)
    (h : mkBusStop item = some stop) :
    (busStopToTransit stop).x
        = jsOr (getF item "tmX") (jsOr (getF item "gpsX")
            (jsOr (getF item "posX") (.str "")))
  ∧ (busStopToTransit stop).y
        = jsOr (getF item "tmY") (jsOr (getF item "gpsY")
            (jsOr (getF item "posY") (.str "")))
  ∧ (getF item "tmX" = .null → getF item "gpsX" = .null →
        getF item "posX" = .str "126.97" →
        (busStopToTransit stop).x = .str "126.97") := by
  obtain ⟨h1, h2, e1, e2, e3, e4, e5, e6, e7⟩ := mkBusStop_inv h
  have hx : (busStopToTransit stop).x = jsOr stop.tmX stop.posX := rfl
  have hy : (busStopToTransit stop).y = jsOr stop.tmY stop.posY := rfl
  refine ⟨?_, ?_, ?_⟩
  · rw [hx, e3, e6, jsOr_chain]
  · rw [hy, e4, e7, jsOr_chain]
  · intro ha hb hc
    rw [hx, e3, e6, ha, hb, hc]
    rfl

/-- Witness for C10 at the `posX`/`posY`-only item. -/
theorem unified_bus_coordinate_posX_fallback_witness :
    (busStopToTransit busStopPosOnly).x = Json.str "126.97" :=
  (unified_bus_coordinate_posX_fallback busItemPosOnly busStopPosOnly rfl).2.2 rfl rfl rfl

theorem strData_append (a b : String) : (a ++ b).data = a.data ++ b.data := by
  cases a
  cases b
  rfl

theorem strEq_of_data {a b : String} (h : a.data = b.data) : a = b := by
  cases a
  cases b
  cases h
  rfl

theorem strContains_self (pat : String) : strContains pat pat :=
  ⟨[], [], by simp⟩

theorem strContains_left (a : String) {t pat : String} (h : strContains t pat) :
    strContains (a ++ t) pat := by
  obtain ⟨p, q, hh⟩ := h
  exact ⟨a.data ++ p, q, by rw [strData_append, hh]; simp [List.append_assoc]⟩

theorem strContains_right {t pat : String} (b : String) (h : strContains t pat) :
    strContains (t ++ b) pat := by
  obtain ⟨p, q, hh⟩ := h
  exact ⟨p, q ++ b.data, by rw [strData_append, hh]; simp [List.append_assoc]⟩

/-- Unfolding of the handler text for a one-element bus result. -/
theorem renderTransitResults_bus (term id0 nm x0 y0 aux : String) :
    renderTransitResults term [⟨.bus, .str id0, .str nm, .str x0, .str y0, .str aux⟩]
      = "\"" ++ term ++ "\" 검색 결과: 총 " ++ toString (1 : Nat)
        ++ "개의 대중교통 정류소/역을 찾았습니다.\n\n"
        ++ ("🚌 " ++ nm ++ " (" ++ aux ++ ")\n   위치: X=" ++ x0 ++ ", Y=" ++ y0
            ++ "\n   정류소ID: " ++ id0) := rfl

/-- Unfolding of the handler text for a one-element subway result: no
coordinate fields appear in the template. -/
theorem renderTransitResults_subway (term id0 nm x0 y0 aux : String) :
    renderTransitResults term [⟨.subway, .str id0, .str nm, .str x0, .str y0, .str aux⟩]
      = "\"" ++ term ++ "\" 검색 결과: 총 " ++ toString (1 : Nat)
        ++ "개의 대중교통 정류소/역을 찾았습니다.\n\n"
        ++ ("🚇 " ++ nm ++ "\n   노선: " ++ aux ++ "\n   역ID: " ++ id0) := rfl

/-- C5 counterexample: with `itemList = [null, wellFormedItem]` the bus
normalizer emits 0 records although the input holds 1 well-formed item:
the property read `item.stationId` on the `null` element throws a
TypeError, the function's catch swallows it, and the items after it are
lost — so output length is not the count of well-formed items. -/
theorem bus_normalizer_truncates_after_null_item :
    parseApiResponse (some nullThenGoodPayload) = []
  ∧ ((toItemArray (getF (getF nullThenGoodPayload "msgBody") "itemList")).filter
        isWellFormedBusItem).length = 1 :=
  ⟨rfl, rfl⟩

/-- C5 (amended): every emitted record has a truthy id and name (non-empty
whenever they are strings) — an item whose id or name fails to resolve is
dropped silently — and for inputs whose items are all non-null the output
length equals the count of well-formed items; a JSON `null` item instead
raises a caught TypeError that truncates the output at that point. -/
theorem normalizer_record_invariant :
    (∀ (parsed : Option Json) (stop : BusStop), stop ∈ parseApiResponse parsed →
        jsTruthy stop.stId = true ∧ jsTruthy stop.stNm = true
      ∧ (∀ s, stop.stId = Json.str s → s ≠ "")
      ∧ (∀ s, stop.stNm = Json.str s → s ≠ ""))
  ∧ (∀ (parsed : Option Json) (station : SubwayStation),
        station ∈ parseSubwayApiResponse parsed →
        jsTruthy station.subwayStationId = true
      ∧ jsTruthy station.subwayStationName = true)
  ∧ (∀ items : List Json, (∀ i ∈ items, i ≠ Json.null) →
        (busItemsToStops items).length = (items.filter isWellFormedBusItem).length)
  ∧ (∀ items : List Json, (∀ i ∈ items, i ≠ Json.null) →
        (subwayItemsToStops items).length
          = (items.filter isWellFormedSubwayItem).length) := by
  refine ⟨?_, ?_, fun items h => busItemsToStops_length h,
    fun items h => subwayItemsToStops_length h⟩
  · intro parsed stop hmem
    obtain ⟨item, hitem⟩ := mem_parseApiResponse hmem
    obtain ⟨h1, h2, e1, e2, _⟩ := mkBusStop_inv hitem
    have ht1 : jsTruthy stop.stId = true := by rw [e1]; exact h1
    have ht2 : jsTruthy stop.stNm = true := by rw [e2]; exact h2
    refine ⟨ht1, ht2, ?_, ?_⟩
    · intro s hs
      rw [hs] at ht1
      simpa [jsTruthy] using ht1
    · intro s hs
      rw [hs] at ht2
      simpa [jsTruthy] using ht2
  · intro parsed station hmem
    obtain ⟨item, hitem⟩ := mem_parseSubwayApiResponse hmem
    obtain ⟨h1, h2, e1, e2, _⟩ := mkSubwayStation_inv hitem
    constructor
    · rw [e1]; exact h1
    · rw [e2]; exact h2

/-- Witness for the amended C5 at concrete well-formed items. -/
theorem normalizer_record_invariant_witness :
    jsTruthy goodBusStop.stId = true
  ∧ (busItemsToStops [goodBusItem]).length
      = ([goodBusItem].filter isWellFormedBusItem).length
  ∧ jsTruthy subwayStationEx.subwayStationId = true
  ∧ (subwayItemsToStops [subwayItemEx]).length
      = ([subwayItemEx].filter isWellFormedSubwayItem).length := by
  refine ⟨(normalizer_record_invariant.1 (some (busPayload goodBusItem [] []))
      goodBusStop ?_).1,
    normalizer_record_invariant.2.2.1 [goodBusItem] ?_,
    (normalizer_record_invariant.2.1 (some (subwayPayload subwayItemEx))
      subwayStationEx ?_).1,
    normalizer_record_invariant.2.2.2 [subwayItemEx] ?_⟩
  · show goodBusStop ∈ [goodBusStop]
    exact List.mem_singleton.mpr rfl
  · intro i hi
    rw [List.mem_singleton] at hi
    subst hi
    exact fun hc => Json.noConfusion hc
  · show subwayStationEx ∈ [subwayStationEx]
    exact List.mem_singleton.mpr rfl
  · intro i hi
    rw [List.mem_singleton] at hi
    subst hi
    exact fun hc => Json.noConfusion hc

/-- C7 counterexample: the normalizer yields zero stops, not two, for the
two-block `<stationList>` XML sample — XML is not valid JSON, so
`JSON.parse` throws (outcome modelled `none`) and the catch returns the
empty list. -/
theorem xml_stationList_not_two_stops :
    (parseApiResponse xmlParseOutcome).length = 0
  ∧ (parseApiResponse xmlParseOutcome).length ≠ 2 :=
  ⟨rfl, by decide⟩

/-- C7 (amended): the normalizers handle only JSON — raw text that is not
valid JSON, such as the legacy XML `<stationList>` sample, makes
`JSON.parse` throw, which both normalizers catch, yielding the empty
sequence; no alternate XML extraction mode exists in the code. -/
theorem normalizers_json_only :
    parseApiResponse xmlParseOutcome = []
  ∧ parseSubwayApiResponse xmlParseOutcome = [] :=
  ⟨rfl, rfl⟩

/-- C9 counterexample: the formatter does not render the coordinate pair
of a subway stop.  For a subway station whose x is `"XC37"` and y is
`"YC127"` the handler text contains the id but neither coordinate value. -/
theorem subway_render_omits_coordinates :
    (subwayStationToTransit subwayStationEx).x = Json.str "XC37"
  ∧ (subwayStationToTransit subwayStationEx).y = Json.str "YC127"
  ∧ strHasSub (renderTransitResults "GangnamSt"
        [subwayStationToTransit subwayStationEx]) "XC37" = false
  ∧ strHasSub (renderTransitResults "GangnamSt"
        [subwayStationToTransit subwayStationEx]) "YC127" = false
  ∧ strHasSub (renderTransitResults "GangnamSt"
        [subwayStationToTransit subwayStationEx]) "S1" = true := by
  refine ⟨rfl, rfl, ?_, ?_, ?_⟩ <;> decide

/-- C9 (amended): the formatter (a total function) renders, for each bus
stop, name, auxiliary info, the coordinate pair and id behind a `🚌` tag;
for each subway stop it renders name, auxiliary info and id behind a `🚇`
tag but no coordinate pair; empty-string fields are rendered as empty
text, not placeholders; and for the empty collection the output is exactly
the header reporting 0 results. -/
theorem formatter_rendering (term id0 nm x0 y0 aux : String) :
    (strContains (renderTransitResults term
          [⟨.bus, .str id0, .str nm, .str x0, .str y0, .str aux⟩]) nm
      ∧ strContains (renderTransitResults term
          [⟨.bus, .str id0, .str nm, .str x0, .str y0, .str aux⟩]) aux
      ∧ strContains (renderTransitResults term
          [⟨.bus, .str id0, .str nm, .str x0, .str y0, .str aux⟩]) x0
      ∧ strContains (renderTransitResults term
          [⟨.bus, .str id0, .str nm, .str x0, .str y0, .str aux⟩]) y0
      ∧ strContains (renderTransitResults term
          [⟨.bus, .str id0, .str nm, .str x0, .str y0, .str aux⟩]) id0
      ∧ strContains (renderTransitResults term
          [⟨.bus, .str id0, .str nm, .str x0, .str y0, .str aux⟩]) "🚌")
  ∧ (strContains (renderTransitResults term
          [⟨.subway, .str id0, .str nm, .str x0, .str y0, .str aux⟩]) nm
      ∧ strContains (renderTransitResults term
          [⟨.subway, .str id0, .str nm, .str x0, .str y0, .str aux⟩]) aux
      ∧ strContains (renderTransitResults term
          [⟨.subway, .str id0, .str nm, .str x0, .str y0, .str aux⟩]) id0
      ∧ strContains (renderTransitResults term
          [⟨.subway, .str id0, .str nm, .str x0, .str y0, .str aux⟩]) "🚇")
  ∧ renderTransitResults term []
      = "\"" ++ term ++ "\" 검색 결과: 총 0개의 대중교통 정류소/역을 찾았습니다.\n\n"
  ∧ renderStop ⟨.bus, .str "", .str "", .str "", .str "", .str ""⟩
      = "🚌  ()\n   위치: X=, Y=\n   정류소ID: " := by
  have htagBus : strContains "🚌 " "🚌" := ⟨[], [' '], rfl⟩
  have htagSub : strContains "🚇 " "🚇" := ⟨[], [' '], rfl⟩
  refine ⟨⟨?_, ?_, ?_, ?_, ?_, ?_⟩, ⟨?_, ?_, ?_, ?_⟩, ?_, ?_⟩
  · rw [renderTransitResults_bus term id0 nm x0 y0 aux]
    exact strContains_left _ (strContains_right _ (strContains_right _ (strContains_right _
      (strContains_right _ (strContains_right _ (strContains_right _ (strContains_right _
        (strContains_right _ (strContains_left _ (strContains_self nm))))))))))
  · rw [renderTransitResults_bus term id0 nm x0 y0 aux]
    exact strContains_left _ (strContains_right _ (strContains_right _ (strContains_right _
      (strContains_right _ (strContains_right _ (strContains_right _
        (strContains_left _ (strContains_self aux))))))))
  · rw [renderTransitResults_bus term id0 nm x0 y0 aux]
    exact strContains_left _ (strContains_right _ (strContains_right _ (strContains_right _
      (strContains_right _ (strContains_left _ (strContains_self x0))))))
  · rw [renderTransitResults_bus term id0 nm x0 y0 aux]
    exact strContains_left _ (strContains_right _ (strContains_right _
      (strContains_left _ (strContains_self y0))))
  · rw [renderTransitResults_bus term id0 nm x0 y0 aux]
    exact strContains_left _ (strContains_left _ (strContains_self id0))
  · rw [renderTransitResults_bus term id0 nm x0 y0 aux]
    exact strContains_left _ (strContains_right _ (strContains_right _ (strContains_right _
      (strContains_right _ (strContains_right _ (strContains_right _ (strContains_right _
        (strContains_right _ (strContains_right _ htagBus)))))))))
  · rw [renderTransitResults_subway term id0 nm x0 y0 aux]
    exact strContains_left _ (strContains_right _ (strContains_right _ (strContains_right _
      (strContains_right _ (strContains_left _ (strContains_self nm))))))
  · rw [renderTransitResults_subway term id0 nm x0 y0 aux]
    exact strContains_left _ (strContains_right _ (strContains_right _
      (strContains_left _ (strContains_self aux))))
  · rw [renderTransitResults_subway term id0 nm x0 y0 aux]
    exact strContains_left _ (strContains_left _ (strContains_self id0))
  · rw [renderTransitResults_subway term id0 nm x0 y0 aux]
    exact strContains_left _ (strContains_right _ (strContains_right _ (strContains_right _
      (strContains_right _ (strContains_right _ htagSub)))))
  · rw [show renderTransitResults term []
        = "\"" ++ term ++ "\" 검색 결과: 총 " ++ toString (0 : Nat)
          ++ "개의 대중교통 정류소/역을 찾았습니다.\n\n" ++ "" from rfl]
    apply strEq_of_data
    simp only [strData_append, List.append_assoc]
    rfl
  · rfl
